import Mathlib

namespace CRootBox

/-- 3D vector of `mymath.h` (`Vector3d`, three doubles); coordinates are
modelled as rationals. Default construction gives the zero vector. -/
structure Vector3d where
  x : Rat
  y : Rat
  z : Rat
deriving DecidableEq

instance : Inhabited Vector3d := ⟨⟨0, 0, 0⟩⟩

/-- 2D integer vector of `mymath.h` (`Vector2i`), used for segments. -/
structure Vector2i where
  x : Int
  y : Int
deriving DecidableEq

instance : Inhabited Vector2i := ⟨⟨0, 0⟩⟩

/-- The per-organ data of `Organ.h`: identity, organ type tag, state flags,
age and length, and the three index-aligned geometry sequences `nodes`,
`nodeIds`, `nodeCTs`.  The delta-tracking fields `moved` and
`oldNumberOfNodes` are modelled from the spec: `hasMoved()` and
`getOldNumberOfNodes()` are called by `Organism.cpp` but their declaration
is outside `src/`; spec section 3 describes "a per-step snapshot of node
count at start of the most recently processed step" and "a flag/sign
indicating whether the last step repositioned the final existing node",
which we model as an explicit flag plus the stored snapshot count. -/
structure OrganData where
  id : Int
  organType : Int
  alive : Bool
  active : Bool
  age : Rat
  length : Rat
  nodes : List Vector3d
  nodeIds : List Int
  nodeCTs : List Rat
  moved : Bool
  oldNumberOfNodes : Int
deriving DecidableEq

/-- An organ: its data together with its ordered list of children
(`std::vector<Organ*> children` in `Organ.h`). -/
inductive Organ : Type where
  | mk : OrganData → List Organ → Organ

/-- The data of an organ. -/
def Organ.dat : Organ → OrganData
  | .mk d _ => d

/-- The children of an organ. -/
def Organ.childList : Organ → List Organ
  | .mk _ cs => cs

/-- `Organ::getNumberOfNodes`: `nodes.size()`. -/
def Organ.getNumberOfNodes (o : Organ) : Nat := o.dat.nodes.length

/-- `Organ::getNode(i)`: `nodes.at(i)` (bounds-checked in C++; reads in the
theorems below are always at indices below `getNumberOfNodes`). -/
def Organ.getNode (o : Organ) (i : Nat) : Vector3d := o.dat.nodes.getD i default

/-- `Organ::getNodeId(i)`: `nodeIds.at(i)`. -/
def Organ.getNodeId (o : Organ) (i : Nat) : Int := o.dat.nodeIds.getD i 0

/-- `Organ::getNodeCT(i)`: `nodeCTs.at(i)`. -/
def Organ.getNodeCT (o : Organ) (i : Nat) : Rat := o.dat.nodeCTs.getD i 0

/-- Modelled from the spec: `Organ::getOldNumberOfNodes` (declared outside
`src/`) returns the stored node-count snapshot of the last processed step. -/
def Organ.getOldNumberOfNodes (o : Organ) : Int := o.dat.oldNumberOfNodes

/-- Modelled from the spec: `Organ::hasMoved` (declared outside `src/`)
reports whether the last step repositioned the organ's final node in place
rather than appending. -/
def Organ.hasMoved (o : Organ) : Bool := o.dat.moved

mutual

/-- Modelled from the spec (section 4.2, `Organ::getOrgans` is implemented
outside `src/`): deterministic depth-first traversal, parent before
children, children in stored order; an organ is included only if it has
more than one node and matches the kind filter (where a negative filter,
`-1` in all call sites, denotes every organ type). -/
def Organ.getOrgansDF (ot : Int) : Organ → List Organ
  | .mk d cs =>
      (if d.nodes.length > 1 ∧ (ot < 0 ∨ ot = d.organType) then [Organ.mk d cs] else [])
        ++ Organ.getOrgansListDF ot cs

def Organ.getOrgansListDF (ot : Int) : List Organ → List Organ
  | [] => []
  | c :: cs => Organ.getOrgansDF ot c ++ Organ.getOrgansListDF ot cs

end

/-- Modelled from the spec (section 4.2, `Organ::getSegments` is implemented
outside `src/`): the pairs of consecutive node ids within this organ. -/
def Organ.getSegments (o : Organ) : List Vector2i :=
  (List.range (o.getNumberOfNodes - 1)).map
    (fun i => Vector2i.mk (o.getNodeId i) (o.getNodeId (i + 1)))

/-- Modelled from the spec (`Organ::getNumberOfSegments` is implemented
outside `src/`): the number of consecutive-node segments of the organ. -/
def Organ.getNumberOfSegments (o : Organ) : Nat := o.getNumberOfNodes - 1

/-- Modelled from the spec (`Organ::getParameter` is implemented outside
`src/`): returns the named scalar organ parameter; an unknown name yields
the sentinel value (a not-a-number double in C++, `0` in the rational
embedding — claim C8 is independent of the sentinel's value). -/
def Organ.getParameterScalar (o : Organ) (name : String) : Rat :=
  if name = "length" then o.dat.length
  else if name = "age" then o.dat.age
  else if name = "id" then (o.dat.id : Rat)
  else 0

/-- Modelled from the spec: `Organ::copy` deep-clones the organ tree,
rebinding the plant back-reference to the target organism.  The
back-reference is not part of the pure state, so the clone carries exactly
the same data. -/
def Organ.copyTo (o : Organ) : Organ := o

/-- `OrganTypeParameter` of `OrganParameter.h` (declared outside `src/`,
constructor and `realize` shown in `src/OrganParameter.cpp`): a prototype
carrying its organ type, sub type and name.  The `plant` back-reference and
the `iparam` introspection registry are not part of the pure state. -/
structure OrganTypeParameter where
  name : String
  organType : Nat
  subType : Int
deriving DecidableEq

/-- Modelled from the spec: `OrganTypeParameter::copy` deep-clones the
prototype bound to a different organism; on the pure state it is the
identical value. -/
def OrganTypeParameter.copyTo (p : OrganTypeParameter) : OrganTypeParameter := p

/-- `Organism::numberOfOrganTypes` (from `Organism.h`, modelled from the
spec's closed organ-kind set organ, seed, root, stem, leaf). -/
def numberOfOrganTypes : Nat := 5

/-- One `std::map<int, OrganTypeParameter*>` of the prototype registry,
as an association list with unique keys (`std::map` keys are unique). -/
abbrev SubTypeMap := List (Int × OrganTypeParameter)

/-- `std::map::find`-style lookup used by `map::at` and `operator[]`. -/
def mapFind (k : Int) : SubTypeMap → Option OrganTypeParameter
  | [] => none
  | e :: es => if e.1 = k then some e.2 else mapFind k es

/-- `std::map::operator[] = p`: replaces the mapped value of an existing
key, otherwise inserts the key. -/
def mapStore (k : Int) (v : OrganTypeParameter) : SubTypeMap → SubTypeMap
  | [] => [(k, v)]
  | e :: es => if e.1 = k then (k, v) :: es else e :: mapStore k v es

/-- The `Organism` state (fields from `Organism.h`, modelled from the spec
section 3: the ordered base organs, the prototype registry organ-kind →
subtype → prototype, simulated time, the monotonic organ-id and node-id
counters, the pre-step snapshot counters, and the shared random generator
state; `gen` stands for the `std::mt19937 gen` together with the `UD`/`ND`
distribution state). -/
structure Organism where
  baseOrgans : List Organ
  organParam : List SubTypeMap
  simtime : Rat
  organId : Int
  nodeId : Int
  oldNumberOfNodes : Int
  oldNumberOfOrgans : Int
  gen : Nat

/-- Modelled from the spec: `Organism::getNumberOfNodes` (in `Organism.h`)
returns the current node-id counter (`nextNodeId`); spec section 4.3 uses
`oldNodeCount = nextNodeId` and "size = current node-id counter". -/
def Organism.getNumberOfNodes (o : Organism) : Int := o.nodeId

/-- Modelled from the spec: `Organism::getNumberOfOrgans` (in `Organism.h`)
returns the current organ-id counter. -/
def Organism.getNumberOfOrgans (o : Organism) : Int := o.organId

/-- Modelled from the spec: `Organism::getNumberOfNewNodes` (in
`Organism.h`), the number of node ids allocated during the last step,
`nextNodeId - oldNodeCount`. -/
def Organism.getNumberOfNewNodes (o : Organism) : Int :=
  o.getNumberOfNodes - o.oldNumberOfNodes

/-- `Organism::getOrgans` (`Organism.cpp` lines 171-179): the concatenated
depth-first organ lists of the base organs, in stored order. -/
def Organism.getOrgans (o : Organism) (ot : Int) : List Organ :=
  (o.baseOrgans.map (fun b => b.getOrgansDF ot)).flatten

/-- A bounds-checked element write, `v.at(i) = x` on a `std::vector`: the
`int` index converts to `size_t` (negative values wrap far out of range)
and `at` throws `std::out_of_range` when it is not below the size. -/
def vecSet {α : Type} (l : List α) (i : Int) (x : α) : Except Unit (List α) :=
  if 0 ≤ i ∧ i < (l.length : Int) then .ok (l.set i.toNat x) else .error ()

/-- A sequence of bounds-checked writes, applied left to right. -/
def writeList {α : Type} (l : List α) (ws : List (Int × α)) : Except Unit (List α) :=
  ws.foldlM (fun acc w => vecSet acc w.1 w.2) l

/-- The unchecked counterpart of `writeList` (equal to it whenever every
index is in range, see `writeList_eq_ok`). -/
def writeListT {α : Type} (l : List α) (ws : List (Int × α)) : List α :=
  ws.foldl (fun acc w => acc.set w.1.toNat w.2) l

/-- `Organism::getParameter` (`Organism.cpp` lines 192-202): one scalar per
organ of the sequential organ list; an empty predefined list selects
`getOrgans(ot)`. -/
def Organism.getParameter (o : Organism) (name : String) (ot : Int)
    (organs : List Organ) : List Rat :=
  let organs2 := if organs.isEmpty then o.getOrgans ot else organs
  organs2.map (fun og => og.getParameterScalar name)

/-- `Organism::getSummed` (`Organism.cpp` lines 211-215):
`std::accumulate(v.begin(), v.end(), 0.0)` over `getParameter(name, ot)`,
a left fold starting from zero. -/
def Organism.getSummed (o : Organism) (name : String) (ot : Int) : Rat :=
  (o.getParameter name ot []).foldl (fun a b => a + b) 0

/-- `Organism::getNodes` (`Organism.cpp` lines 279-292): a vector sized to
`getNumberOfNodes()`; first every base organ's initial node is written at
its global node id, then every traversed organ's nodes are written at
their global node ids. -/
def Organism.getNodes (o : Organism) : Except Unit (List Vector3d) := do
  let organs := o.getOrgans (-1)
  let nv0 := List.replicate o.getNumberOfNodes.toNat (default : Vector3d)
  let nv1 ← o.baseOrgans.foldlM
    (fun nv b => vecSet nv (b.getNodeId 0) (b.getNode 0)) nv0
  organs.foldlM (fun nv og =>
    (List.range og.getNumberOfNodes).foldlM
      (fun nv i => vecSet nv (og.getNodeId i) (og.getNode i)) nv) nv1

/-- `Organism::getSegments` (`Organism.cpp` lines 322-336): the per-organ
segment lists of the traversal, appended in order. -/
def Organism.getSegments (o : Organism) (ot : Int) : List Vector2i :=
  ((o.getOrgans ot).map (fun og => og.getSegments)).flatten

/-- `Organism::getUpdatedNodeIndices` (`Organism.cpp` lines 378-388): for
every traversed organ with `hasMoved()`, the global id of its node at
local index `getOldNumberOfNodes() - 1`. -/
def Organism.getUpdatedNodeIndices (o : Organism) : List Int :=
  (o.getOrgans (-1)).foldl (fun ni og =>
    if og.hasMoved then ni ++ [og.getNodeId (og.getOldNumberOfNodes - 1).toNat]
    else ni) []

/-- `Organism::getUpdatedNodes` (`Organism.cpp` lines 393-403): for every
traversed organ with `hasMoved()`, its node at local index
`getOldNumberOfNodes() - 1`. -/
def Organism.getUpdatedNodes (o : Organism) : List Vector3d :=
  (o.getOrgans (-1)).foldl (fun nv og =>
    if og.hasMoved then nv ++ [og.getNode (og.getOldNumberOfNodes - 1).toNat]
    else nv) []

/-- The local node indices visited by the `getNewNodes` loop
(`Organism.cpp` lines 413-417): `int onon = getOldNumberOfNodes()` and
`for (size_t i = onon; i < getNumberOfNodes(); i++)`; a negative `onon`
converts to a huge `size_t`, so the loop body never runs. -/
def Organ.newNodeIdxList (og : Organ) : List Nat :=
  let onon := og.getOldNumberOfNodes
  if onon < 0 then [] else List.range' onon.toNat (og.getNumberOfNodes - onon.toNat)

/-- The local start indices visited by the `getNewSegments` and
`getNewSegmentOrigins` loops (`Organism.cpp` lines 433-439 and 457-462):
`int onon = std::abs(getOldNumberOfNodes())` and
`for (size_t i = onon - 1; i < getNumberOfNodes() - 1; i++)`; for
`onon = 0` the start `-1` converts to `SIZE_MAX`, so the loop never runs
(for a traversed organ the node count is at least 2). -/
def Organ.newSegIdxList (og : Organ) : List Nat :=
  let k := og.getOldNumberOfNodes.natAbs
  if k = 0 then [] else List.range' (k - 1) ((og.getNumberOfNodes - 1) - (k - 1))

/-- The local node indices visited by the `getNewSegmentCTs` loop
(`Organism.cpp` lines 478-483): `int onon = std::abs(getOldNumberOfNodes())`
and `for (size_t i = onon; i < getNumberOfNodes(); i++)`. -/
def Organ.ctIdxList (og : Organ) : List Nat :=
  let k := og.getOldNumberOfNodes.natAbs
  List.range' k (og.getNumberOfNodes - k)

/-- `Organism::getNewNodes` (`Organism.cpp` lines 409-420): a vector sized
to `getNumberOfNewNodes()`; every traversed organ writes each node past
its stored old node count at index `getNodeId(i) - oldNumberOfNodes`. -/
def Organism.getNewNodes (o : Organism) : Except Unit (List Vector3d) :=
  (o.getOrgans (-1)).foldlM (fun nv og =>
      og.newNodeIdxList.foldlM (fun nv i =>
        vecSet nv (og.getNodeId i - o.oldNumberOfNodes) (og.getNode i)) nv)
    (List.replicate o.getNumberOfNewNodes.toNat (default : Vector3d))

/-- `Organism::getNewSegments` (`Organism.cpp` lines 428-442): a vector
sized to `getNumberOfNewNodes()`; the consecutive node-id pairs of every
traversed organ over `newSegIdxList` are written at the running counter
`c`. -/
def Organism.getNewSegments (o : Organism) (ot : Int) : Except Unit (List Vector2i) :=
  Except.map Prod.fst <|
    (o.getOrgans ot).foldlM (fun (p : List Vector2i × Nat) og =>
        og.newSegIdxList.foldlM (fun p i => do
            let si ← vecSet p.1 (p.2 : Int)
              (Vector2i.mk (og.getNodeId i) (og.getNodeId (i + 1)))
            pure (si, p.2 + 1)) p)
      (List.replicate o.getNumberOfNewNodes.toNat (default : Vector2i), 0)

/-- `Organism::getNewSegmentOrigins` (`Organism.cpp` lines 452-465): a
vector sized to `getNumberOfNewNodes()`; the traversed organ itself is
written at the running counter once per new segment. -/
def Organism.getNewSegmentOrigins (o : Organism) (ot : Int) : Except Unit (List Organ) :=
  Except.map Prod.fst <|
    (o.getOrgans ot).foldlM (fun (p : List Organ × Nat) og =>
        og.newSegIdxList.foldlM (fun p _i => do
            let si ← vecSet p.1 (p.2 : Int) og
            pure (si, p.2 + 1)) p)
      (List.replicate o.getNumberOfNewNodes.toNat
        (Organ.mk (OrganData.mk 0 0 true true 0 0 [] [] [] false 0) []), 0)

/-- `Organism::getNewSegmentCTs` (`Organism.cpp` lines 474-486): a vector
sized to `getNumberOfNewNodes()`; note that the source calls
`this->getOrgans()` with the default filter, ignoring its `ot` parameter;
every traversed organ writes the creation time of each node from
`std::abs(getOldNumberOfNodes())` on at index `getNodeId(i) -
oldNumberOfNodes`. -/
def Organism.getNewSegmentCTs (o : Organism) (ot : Int) : Except Unit (List Rat) :=
  (o.getOrgans (-1)).foldlM (fun cts og =>
      og.ctIdxList.foldlM (fun cts i =>
        vecSet cts (og.getNodeId i - o.oldNumberOfNodes) (og.getNodeCT i)) cts)
    (List.replicate o.getNumberOfNewNodes.toNat (0 : Rat))

/-- `Organism::getOrganTypeParameter(ot, subtype)` (`Organism.cpp` lines
101-114): `organParam[ot].at(subtype)`; `std::map::at` throws
`std::out_of_range` for a missing key, which the function prints and
rethrows — it never fabricates a default prototype. -/
def Organism.getOrganTypeParameter (o : Organism) (ot : Nat) (subtype : Int) :
    Except Unit OrganTypeParameter :=
  match mapFind subtype (o.organParam.getD ot []) with
  | some p => .ok p
  | none => .error ()

/-- `Organism::setOrganTypeParameter` (`Organism.cpp` lines 122-134):
deletes the prototype previously stored at `(p.organType, p.subType)` if
any (releasing it), then stores `p` at that key. -/
def Organism.setOrganTypeParameter (o : Organism) (p : OrganTypeParameter) : Organism :=
  let m2 := mapStore p.subType p (o.organParam.getD p.organType [])
  { o with organParam := o.organParam.set p.organType m2 }

/-- The external per-organ growth policy state it threads: the shared
node-id and organ-id counters and the random generator state (spec
sections 3 and 6). -/
structure SimCtx where
  nodeId : Int
  organId : Int
  gen : Nat
deriving DecidableEq

/-- `Organism::simulate(dt, verbose)` (`Organism.cpp` lines 151-162):
records the pre-step node and organ counts into the snapshot counters,
calls the virtual `simulate(dt, verbose)` of each base organ in stored
order (the per-organ growth policy is an external collaborator, spec
section 6, passed here as `step`; it may rewrite the organ subtree and
consume the shared counters and generator), then advances `simtime` by
`dt`.  `verbose` only controls console output. -/
def Organism.simulate (step : Rat → Organ → SimCtx → Organ × SimCtx) (dt : Rat)
    (verbose : Bool) (o : Organism) : Organism :=
  let o1 := { o with oldNumberOfNodes := o.getNumberOfNodes,
                     oldNumberOfOrgans := o.getNumberOfOrgans }
  let r := o1.baseOrgans.foldl (fun (acc : List Organ × SimCtx) b =>
      let s := step dt b acc.2
      (acc.1 ++ [s.1], s.2)) ([], SimCtx.mk o1.nodeId o1.organId o1.gen)
  { o1 with baseOrgans := r.1, nodeId := r.2.nodeId, organId := r.2.organId,
            gen := r.2.gen, simtime := o1.simtime + dt }

/-- The `Organism` copy constructor (`Organism.cpp` lines 50-63): copies
`organParam` and deep-clones each prototype, copies `simtime`, `organId`,
`nodeId` and the generator state `gen`/`UD`/`ND`, and deep-clones the base
organs.  The snapshot counters are not in the initializer list, so they
keep their in-class initial value `0` (modelled from the spec: the
`Organism.h` field initializers are outside `src/`). -/
def Organism.copyCtor (o : Organism) : Organism :=
  { baseOrgans := o.baseOrgans.map Organ.copyTo
    organParam := o.organParam.map (fun m => m.map (fun e => (e.1, e.2.copyTo)))
    simtime := o.simtime
    organId := o.organId
    nodeId := o.nodeId
    oldNumberOfNodes := 0
    oldNumberOfOrgans := 0
    gen := o.gen }

/-- `Organism::setSeed` (`Organism.cpp` lines 620-623): reseeds the shared
generator. -/
def Organism.setSeed (o : Organism) (seed : Nat) : Organism := { o with gen := seed }

/-- `Organism::initialize` (`Organism.cpp` lines 142-143): the base class
hook does nothing. -/
def Organism.initHook (o : Organism) : Organism := o

/-- `Organism::organTypeNames` (`Organism.cpp` line 14). -/
def organTypeNames : List String := ["organ", "seed", "root", "stem", "leaf"]

/-- The search loop of `Organism::organTypeNumber` (`Organism.cpp` lines
19-31): increment `ot` while the name differs from `organTypeNames.at(ot)`;
running past the table makes `at` throw, which is caught, printed and
rethrown. -/
def organTypeNumberFrom (name : String) (ot : Int) : List String → Except Unit Int
  | [] => .error ()
  | n :: rest => if name = n then .ok ot else organTypeNumberFrom name (ot + 1) rest

/-- `Organism::organTypeNumber` (`Organism.cpp` lines 19-31). -/
def organTypeNumber (name : String) : Except Unit Int :=
  organTypeNumberFrom name 0 organTypeNames

/-- `Organism::organTypeName` (`Organism.cpp` lines 36-45):
`organTypeNames.at(ot)`; an out-of-range number (negative `int` indices
convert to huge `size_t` values) makes `at` throw, which is caught,
printed and rethrown. -/
def organTypeName (ot : Int) : Except Unit String :=
  if h : 0 ≤ ot ∧ ot.toNat < organTypeNames.length then
    .ok (organTypeNames.get ⟨ot.toNat, h.2⟩)
  else .error ()

/-- Every write index of the list is a valid position of a vector of `n`
elements. -/
def WritesInRange {α : Type} (ws : List (Int × α)) (n : Nat) : Prop :=
  ∀ w ∈ ws, 0 ≤ w.1 ∧ w.1 < (n : Int)

/-- Any two writes to the same index write the same value. -/
def WritesConsistent {α : Type} (ws : List (Int × α)) : Prop :=
  ∀ w ∈ ws, ∀ w2 ∈ ws, w.1 = w2.1 → w.2 = w2.2

instance {α : Type} (ws : List (Int × α)) (n : Nat) :
    Decidable (WritesInRange ws n) :=
  inferInstanceAs (Decidable (∀ w ∈ ws, 0 ≤ w.1 ∧ w.1 < (n : Int)))

instance {α : Type} [DecidableEq α] (ws : List (Int × α)) :
    Decidable (WritesConsistent ws) :=
  inferInstanceAs (Decidable (∀ w ∈ ws, ∀ w2 ∈ ws, w.1 = w2.1 → w.2 = w2.2))

/-- The closed list of integers `a, a+1, ..., a+n-1`. -/
def intRange (a : Int) : Nat → List Int
  | 0 => []
  | n + 1 => a :: intRange (a + 1) n

theorem length_intRange : ∀ (n : Nat) (a : Int), (intRange a n).length = n := by
  intro n
  induction n with
  | zero => intro a; rfl
  | succ n ih => intro a; simp [intRange, ih]

theorem mem_intRange : ∀ (n : Nat) (a x : Int),
    x ∈ intRange a n ↔ a ≤ x ∧ x < a + n := by
  intro n
  induction n with
  | zero =>
      intro a x
      simp only [intRange, List.not_mem_nil, false_iff, not_and, not_lt]
      omega
  | succ n ih =>
      intro a x
      simp only [intRange, List.mem_cons, ih]
      omega

theorem nodup_intRange : ∀ (n : Nat) (a : Int), (intRange a n).Nodup := by
  intro n
  induction n with
  | zero => intro a; simp [intRange]
  | succ n ih => intro a; simp [intRange, List.nodup_cons, mem_intRange, ih]

theorem map_sub_intRange : ∀ (n : Nat) (a b : Int),
    (intRange a n).map (fun x => x - b) = intRange (a - b) n := by
  intro n
  induction n with
  | zero => intro a b; rfl
  | succ n ih =>
      intro a b
      simp only [intRange, List.map_cons, ih]
      congr 2
      omega

theorem set_getD_same {α : Type} (l : List α) (i : Nat) (x d : α)
    (h : i < l.length) : (l.set i x).getD i d = x := by
  induction l generalizing i with
  | nil => simp at h
  | cons y ys ih =>
      cases i with
      | zero => simp
      | succ i => simpa using ih i (by simpa using h)

theorem set_getD_other {α : Type} (l : List α) (i j : Nat) (x d : α)
    (h : i ≠ j) : (l.set i x).getD j d = l.getD j d := by
  induction l generalizing i j with
  | nil => simp [List.set]
  | cons y ys ih =>
      cases i with
      | zero =>
          cases j with
          | zero => exact absurd rfl h
          | succ j => simp
      | succ i =>
          cases j with
          | zero => simp
          | succ j => simpa using ih i j (by omega)

theorem writeListT_cons {α : Type} (l : List α) (w : Int × α) (ws : List (Int × α)) :
    writeListT l (w :: ws) = writeListT (l.set w.1.toNat w.2) ws := rfl

theorem writeListT_length {α : Type} (l : List α) (ws : List (Int × α)) :
    (writeListT l ws).length = l.length := by
  induction ws generalizing l with
  | nil => rfl
  | cons w ws ih => rw [writeListT_cons, ih, List.length_set]

theorem writeList_eq_ok {α : Type} (l : List α) (ws : List (Int × α))
    (h : WritesInRange ws l.length) :
    writeList l ws = .ok (writeListT l ws) := by
  induction ws generalizing l with
  | nil => rfl
  | cons w ws ih =>
      have hw := h w (by simp)
      have hset : vecSet l w.1 w.2 = .ok (l.set w.1.toNat w.2) := by
        rw [vecSet, if_pos hw]
      simp only [writeList, List.foldlM_cons, hset, writeListT_cons]
      have h2 : WritesInRange ws (l.set w.1.toNat w.2).length := by
        intro w2 hw2
        rw [List.length_set]
        exact h w2 (by simp [hw2])
      simpa [writeList, Except.bind] using ih (l.set w.1.toNat w.2) h2

theorem writeListT_getD_of_not_mem {α : Type} (l : List α) (ws : List (Int × α))
    (j : Nat) (d : α) (h : ∀ w ∈ ws, w.1.toNat ≠ j) :
    (writeListT l ws).getD j d = l.getD j d := by
  induction ws generalizing l with
  | nil => rfl
  | cons w ws ih =>
      rw [writeListT_cons, ih _ (fun w2 hw2 => h w2 (by simp [hw2])),
        set_getD_other _ _ _ _ _ (h w (by simp))]

theorem writeListT_getD_of_mem {α : Type} (ws : List (Int × α)) :
    ∀ (l : List α) (w : Int × α) (d : α), w ∈ ws → WritesInRange ws l.length →
      WritesConsistent ws → (writeListT l ws).getD w.1.toNat d = w.2 := by
  induction ws with
  | nil =>
      intro l w d hmem _ _
      cases hmem
  | cons w0 ws ih =>
      intro l w d hmem hrange hcons
      rw [writeListT_cons]
      have hr2 : WritesInRange ws (l.set w0.1.toNat w0.2).length := by
        intro w3 hw3
        rw [List.length_set]
        exact hrange w3 (List.mem_cons_of_mem _ hw3)
      have hc2 : WritesConsistent ws := by
        intro w3 hw3 w4 hw4
        exact hcons w3 (List.mem_cons_of_mem _ hw3) w4 (List.mem_cons_of_mem _ hw4)
      by_cases hw : ∃ w2 ∈ ws, w2.1 = w.1
      · obtain ⟨w2, hw2, he⟩ := hw
        have h2 := ih (l.set w0.1.toNat w0.2) w2 d hw2 hr2 hc2
        have hv : w2.2 = w.2 := hcons w2 (List.mem_cons_of_mem _ hw2) w hmem he
        rw [show w.1 = w2.1 from he.symm]
        exact h2.trans hv
      · have hwm : w = w0 := by
          rcases List.mem_cons.mp hmem with h | h
          · exact h
          · exact absurd ⟨w, h, rfl⟩ hw
        subst hwm
        have h0 := hrange w (List.mem_cons_self _ _)
        rw [writeListT_getD_of_not_mem]
        · exact set_getD_same _ _ _ _ (by omega)
        · intro w2 hw2
          have h1 := hrange w2 (List.mem_cons_of_mem _ hw2)
          have hne : w2.1 ≠ w.1 := fun hc => hw ⟨w2, hw2, hc⟩
          omega

theorem except_bind_ok2 {ε α β : Type} (a : α) (f : α → Except ε β) :
    ((Except.ok a : Except ε α) >>= f) = f a := rfl

theorem except_bind_error2 {ε α β : Type} (e : ε) (f : α → Except ε β) :
    ((Except.error e : Except ε α) >>= f) = Except.error e := rfl

theorem exBind_ok {ε α β : Type} (a : α) (f : α → Except ε β) :
    (Except.ok a : Except ε α).bind f = f a := rfl

theorem exBind_error {ε α β : Type} (e : ε) (f : α → Except ε β) :
    (Except.error e : Except ε α).bind f = Except.error e := rfl

theorem except_pure_eq {ε α : Type} (a : α) :
    (pure a : Except ε α) = Except.ok a := rfl

theorem exceptFoldlM_append {α β : Type} (f : β → α → Except Unit β)
    (xs : List α) : ∀ (ys : List α) (b : β),
    (xs ++ ys).foldlM f b = (xs.foldlM f b).bind (fun b2 => ys.foldlM f b2) := by
  induction xs with
  | nil => intro ys b; rfl
  | cons a as ih =>
      intro ys b
      simp only [List.cons_append, List.foldlM_cons]
      cases f b a with
      | error e => rw [except_bind_error2, except_bind_error2, exBind_error]
      | ok b2 => rw [except_bind_ok2, except_bind_ok2, ih ys b2]

theorem exceptFoldlM_map {α γ β : Type} (g : γ → α) (f : β → α → Except Unit β)
    (l : List γ) : ∀ (b : β),
    (l.map g).foldlM f b = l.foldlM (fun acc c => f acc (g c)) b := by
  induction l with
  | nil => intro b; rfl
  | cons c cs ih =>
      intro b
      simp only [List.map_cons, List.foldlM_cons]
      cases f b (g c) with
      | error e => rw [except_bind_error2, except_bind_error2]
      | ok b2 => rw [except_bind_ok2, except_bind_ok2, ih b2]

theorem exceptFoldlM_flatten {α β : Type} (f : β → α → Except Unit β)
    (L : List (List α)) : ∀ (b : β),
    L.flatten.foldlM f b = L.foldlM (fun acc xs => xs.foldlM f acc) b := by
  induction L with
  | nil => intro b; rfl
  | cons xs Ls ih =>
      intro b
      simp only [List.flatten_cons, List.foldlM_cons, exceptFoldlM_append]
      cases hx : xs.foldlM f b with
      | error e => rw [exBind_error, except_bind_error2]
      | ok b2 => rw [exBind_ok, except_bind_ok2, ih b2]

/-- One step of a `v.at(c) = value; c++` write loop, as used by
`getNewSegments` and `getNewSegmentOrigins`. -/
def cwrite {α : Type} (p : List α × Nat) (v : α) : Except Unit (List α × Nat) := do
  let si ← vecSet p.1 (p.2 : Int) v
  pure (si, p.2 + 1)

theorem take_succ_set {α : Type} : ∀ (l : List α) (c : Nat) (v : α),
    c < l.length → (l.set c v).take (c + 1) = l.take c ++ [v] := by
  intro l
  induction l with
  | nil => intro c v h; simp at h
  | cons x xs ih =>
      intro c v h
      cases c with
      | zero => simp
      | succ c =>
          simp only [List.set_cons_succ, List.take_succ_cons, List.cons_append]
          rw [ih c v (by simpa using h)]

theorem except_bind_ok {ε α β : Type} (a : α) (f : α → Except ε β) :
    (Except.ok a >>= f) = f a := rfl

theorem counterFold_exact {α : Type} (vs : List α) : ∀ (si : List α) (c : Nat),
    c + vs.length = si.length →
    vs.foldlM cwrite (si, c) = .ok (si.take c ++ vs, si.length) := by
  induction vs with
  | nil =>
      intro si c h
      simp only [List.length_nil, Nat.add_zero] at h
      subst h
      rw [List.foldlM_nil, List.take_length, List.append_nil]
      rfl
  | cons v vs ih =>
      intro si c h
      have hc : c < si.length := by simp at h; omega
      have hset : vecSet si (c : Int) v = .ok (si.set c v) := by
        rw [vecSet, if_pos ⟨by omega, by omega⟩]
        simp
      have hcw : cwrite (si, c) v = .ok (si.set c v, c + 1) := by
        simp only [cwrite, hset, except_bind_ok]
        rfl
      simp only [List.foldlM_cons, hcw, except_bind_ok]
      rw [ih (si.set c v) (c + 1) (by simp only [List.length_set, List.length_cons] at h ⊢; omega)]
      rw [take_succ_set si c v hc]
      simp [List.length_set, List.append_assoc]

/-- The (index, value) writes `getNewNodes` performs for one traversed
organ: each node past the stored old count, at its id-offset index. -/
def Organ.newNodeWriteList (og : Organ) (old : Int) : List (Int × Vector3d) :=
  og.newNodeIdxList.map (fun i => (og.getNodeId i - old, og.getNode i))

/-- All writes performed by `getNewNodes`, in execution order. -/
def Organism.newNodeWrites (o : Organism) : List (Int × Vector3d) :=
  ((o.getOrgans (-1)).map (fun og => og.newNodeWriteList o.oldNumberOfNodes)).flatten

/-- The global ids of the nodes the `getNewNodes` loops touch, in traversal
and then append order — the allocation-order invariant of spec section 4.3
states that these are exactly `oldNumberOfNodes, ..., nextNodeId - 1`. -/
def Organism.newNodeIds (o : Organism) : List Int :=
  ((o.getOrgans (-1)).map (fun og => og.newNodeIdxList.map og.getNodeId)).flatten

theorem getNewNodes_eq_writeList (o : Organism) :
    o.getNewNodes = writeList
      (List.replicate o.getNumberOfNewNodes.toNat (default : Vector3d))
      o.newNodeWrites := by
  rw [Organism.getNewNodes, Organism.newNodeWrites, writeList, exceptFoldlM_flatten]
  simp only [exceptFoldlM_map, Organ.newNodeWriteList]

theorem newNodeWrites_map_fst (o : Organism) :
    o.newNodeWrites.map Prod.fst
      = o.newNodeIds.map (fun x => x - o.oldNumberOfNodes) := by
  simp only [Organism.newNodeWrites, Organism.newNodeIds, List.map_flatten,
    List.map_map, Organ.newNodeWriteList]
  congr 1
  refine List.map_congr_left ?_
  intro og _
  simp only [Function.comp_apply, List.map_map]
  rfl

/-- The consecutive node-id pairs one traversed organ contributes to
`getNewSegments`. -/
def Organ.newSegPairs (og : Organ) : List Vector2i :=
  og.newSegIdxList.map (fun i => Vector2i.mk (og.getNodeId i) (og.getNodeId (i + 1)))

/-- All values written by `getNewSegments`, in execution order. -/
def Organism.newSegValues (o : Organism) (ot : Int) : List Vector2i :=
  ((o.getOrgans ot).map Organ.newSegPairs).flatten

theorem getNewSegments_eq_counterFold (o : Organism) (ot : Int) :
    o.getNewSegments ot = Except.map Prod.fst
      ((o.newSegValues ot).foldlM cwrite
        (List.replicate o.getNumberOfNewNodes.toNat (default : Vector2i), 0)) := by
  rw [Organism.getNewSegments, Organism.newSegValues, exceptFoldlM_flatten]
  simp only [exceptFoldlM_map, Organ.newSegPairs, cwrite]

/-- All values written by `getNewSegmentOrigins`, in execution order: the
traversed organ itself, once per new segment. -/
def Organism.newSegOriginValues (o : Organism) (ot : Int) : List Organ :=
  ((o.getOrgans ot).map (fun og => og.newSegIdxList.map (fun _ => og))).flatten

theorem getNewSegmentOrigins_eq_counterFold (o : Organism) (ot : Int) :
    o.getNewSegmentOrigins ot = Except.map Prod.fst
      ((o.newSegOriginValues ot).foldlM cwrite
        (List.replicate o.getNumberOfNewNodes.toNat
          (Organ.mk (OrganData.mk 0 0 true true 0 0 [] [] [] false 0) []), 0)) := by
  rw [Organism.getNewSegmentOrigins, Organism.newSegOriginValues, exceptFoldlM_flatten]
  simp only [exceptFoldlM_map, cwrite]

/-- The (index, value) writes `getNewSegmentCTs` performs for one traversed
organ. -/
def Organ.ctWriteList (og : Organ) (old : Int) : List (Int × Rat) :=
  og.ctIdxList.map (fun i => (og.getNodeId i - old, og.getNodeCT i))

/-- All writes performed by `getNewSegmentCTs`, in execution order. -/
def Organism.ctWrites (o : Organism) : List (Int × Rat) :=
  ((o.getOrgans (-1)).map (fun og => og.ctWriteList o.oldNumberOfNodes)).flatten

theorem getNewSegmentCTs_eq_writeList (o : Organism) (ot : Int) :
    o.getNewSegmentCTs ot = writeList
      (List.replicate o.getNumberOfNewNodes.toNat (0 : Rat)) o.ctWrites := by
  rw [Organism.getNewSegmentCTs, Organism.ctWrites, writeList, exceptFoldlM_flatten]
  simp only [exceptFoldlM_map, Organ.ctWriteList]

/-- All writes performed by `getNodes`, in execution order: first the base
organs' initial nodes, then every traversed organ's full node list. -/
def Organism.nodeWrites (o : Organism) : List (Int × Vector3d) :=
  o.baseOrgans.map (fun b => (b.getNodeId 0, b.getNode 0))
    ++ ((o.getOrgans (-1)).map (fun og =>
        (List.range og.getNumberOfNodes).map
          (fun i => (og.getNodeId i, og.getNode i)))).flatten

theorem getNodes_eq_writeList (o : Organism) :
    o.getNodes = writeList
      (List.replicate o.getNumberOfNodes.toNat (default : Vector3d))
      o.nodeWrites := by
  rw [Organism.getNodes, Organism.nodeWrites, writeList, exceptFoldlM_append]
  simp only [exceptFoldlM_map, exceptFoldlM_flatten]
  rfl

instance {ε α : Type} [DecidableEq ε] [DecidableEq α] : DecidableEq (Except ε α) :=
  fun a b =>
    match a, b with
    | .error e, .error e2 =>
        if h : e = e2 then isTrue (congrArg Except.error h)
        else isFalse (fun hc => h (Except.error.inj hc))
    | .ok v, .ok v2 =>
        if h : v = v2 then isTrue (congrArg Except.ok h)
        else isFalse (fun hc => h (Except.ok.inj hc))
    | .error _, .ok _ => isFalse (fun hc => Except.noConfusion hc)
    | .ok _, .error _ => isFalse (fun hc => Except.noConfusion hc)

theorem organTypeNumberFrom_not_mem (name : String) :
    ∀ (l : List String) (k : Int), name ∉ l →
      organTypeNumberFrom name k l = .error () := by
  intro l
  induction l with
  | nil => intro k _; rfl
  | cons n rest ih =>
      intro k h
      rw [organTypeNumberFrom, if_neg (by simp at h; exact h.1),
        ih (k + 1) (by simp at h; exact h.2)]

/-- C10: the organ-kind name/number translation is a bijection on the fixed
five-entry table: for every number `0 ≤ ot < 5`, translating to the name
and back yields `ot`; for every name of the table, translating to the
number and back yields the name; any other number or name makes the
respective function throw. -/
theorem C10_organ_type_translation :
    (∀ ot : Int, 0 ≤ ot → ot < 5 →
      (organTypeName ot).bind organTypeNumber = .ok ot)
    ∧ (∀ s, s ∈ organTypeNames →
      (organTypeNumber s).bind organTypeName = .ok s)
    ∧ (∀ ot : Int, ot < 0 ∨ 5 ≤ ot → organTypeName ot = .error ())
    ∧ (∀ s, s ∉ organTypeNames → organTypeNumber s = .error ()) := by
  refine ⟨?_, ?_, ?_, ?_⟩
  · intro ot h1 h2
    interval_cases ot <;> decide
  · decide
  · intro ot h
    have hlen : organTypeNames.length = 5 := rfl
    rw [organTypeName, dif_neg]
    omega
  · intro s h
    exact organTypeNumberFrom_not_mem s organTypeNames 0 h

/-- Witness for C10 at concrete inputs. -/
theorem C10_organ_type_translation_witness :
    (organTypeName 2).bind organTypeNumber = .ok 2
    ∧ (organTypeNumber "leaf").bind organTypeName = .ok "leaf"
    ∧ organTypeName (-3) = .error ()
    ∧ organTypeNumber "bamboo" = .error () :=
  ⟨C10_organ_type_translation.1 2 (by decide) (by decide),
   C10_organ_type_translation.2.1 "leaf" (by decide),
   C10_organ_type_translation.2.2.1 (-3) (Or.inl (by decide)),
   C10_organ_type_translation.2.2.2 "bamboo" (by decide)⟩

/-- C4: `Organism::simulate(dt, verbose)` first records the pre-step node
and organ counts into the snapshot counters, then runs the per-organ step
on each base organ sequentially in stored order (threading the shared
counter and generator state from left to right), and finally leaves the
simulated time at its pre-call value plus `dt`. -/
theorem C4_simulate_contract (step : Rat → Organ → SimCtx → Organ × SimCtx)
    (dt : Rat) (verbose : Bool) (o : Organism) :
    (o.simulate step dt verbose).oldNumberOfNodes = o.getNumberOfNodes
    ∧ (o.simulate step dt verbose).oldNumberOfOrgans = o.getNumberOfOrgans
    ∧ (o.simulate step dt verbose).simtime = o.simtime + dt
    ∧ (o.simulate step dt verbose).baseOrgans
        = (o.baseOrgans.foldl (fun (acc : List Organ × SimCtx) b =>
            let s := step dt b acc.2
            (acc.1 ++ [s.1], s.2)) ([], SimCtx.mk o.nodeId o.organId o.gen)).1 :=
  ⟨rfl, rfl, rfl, rfl⟩

/-- C8: the sum over the vector returned by `getParameter("length", ot)`
equals `getSummed("length", ot)` exactly — both reduce the same flattened
organ list in the same order. -/
theorem C8_parameter_sum_eq_summed (o : Organism) (ot : Int) :
    (o.getParameter "length" ot []).sum = o.getSummed "length" ot := by
  rw [Organism.getSummed, List.sum_eq_foldl]

/-- C7: for a registered (organ-kind, subtype) pair,
`getOrganTypeParameter(ot, subtype)` returns the stored prototype; for an
unregistered pair it signals the configuration error (the
`std::out_of_range` of `map::at`, printed and rethrown) and never returns
a default-valued prototype. -/
theorem C7_unregistered_prototype_errors (o : Organism) (ot : Nat) (st : Int)
    (hot : ot < numberOfOrganTypes) :
    (mapFind st (o.organParam.getD ot []) = none →
      o.getOrganTypeParameter ot st = .error ())
    ∧ ∀ p, mapFind st (o.organParam.getD ot []) = some p →
      o.getOrganTypeParameter ot st = .ok p := by
  constructor
  · intro h
    rw [Organism.getOrganTypeParameter, h]
  · intro p h
    rw [Organism.getOrganTypeParameter, h]

/-- A sample registered prototype. -/
def regOTP : OrganTypeParameter := OrganTypeParameter.mk "p1" 2 1

/-- An organism whose registry holds `regOTP` at kind 2, subtype 1, and
nothing else. -/
def regOrganism : Organism :=
  Organism.mk [] [[], [], [((1 : Int), regOTP)], [], []] 0 0 0 0 0 0

/-- Witness for C7: a missing subtype errors, the registered one is
returned. -/
theorem C7_unregistered_prototype_errors_witness :
    2 < numberOfOrganTypes
    ∧ regOrganism.getOrganTypeParameter 2 5 = .error ()
    ∧ regOrganism.getOrganTypeParameter 2 1 = .ok regOTP :=
  ⟨by decide,
   (C7_unregistered_prototype_errors regOrganism 2 5 (by decide)).1 (by decide),
   (C7_unregistered_prototype_errors regOrganism 2 1 (by decide)).2 regOTP (by decide)⟩

/-- Key uniqueness of one subtype map (`std::map` guarantees it). -/
def mapKeysNodup (m : SubTypeMap) : Prop := (m.map Prod.fst).Nodup

theorem mapFind_mapStore_self (k : Int) (v : OrganTypeParameter) :
    ∀ m : SubTypeMap, mapFind k (mapStore k v m) = some v := by
  intro m
  induction m with
  | nil => simp [mapStore, mapFind]
  | cons e es ih =>
      by_cases h : e.1 = k
      · rw [mapStore, if_pos h, mapFind, if_pos rfl]
      · rw [mapStore, if_neg h, mapFind, if_neg h, ih]

theorem mapFind_mapStore_other (k k2 : Int) (v : OrganTypeParameter) (h : k2 ≠ k) :
    ∀ m : SubTypeMap, mapFind k2 (mapStore k v m) = mapFind k2 m := by
  intro m
  induction m with
  | nil =>
      rw [mapStore]
      simp only [mapFind]
      rw [if_neg (fun hc : k = k2 => h hc.symm)]
  | cons e es ih =>
      by_cases he : e.1 = k
      · rw [mapStore, if_pos he]
        simp only [mapFind]
        rw [if_neg (fun hc : k = k2 => h hc.symm),
          if_neg (by rw [he]; exact fun hc : k = k2 => h hc.symm)]
      · rw [mapStore, if_neg he]
        simp only [mapFind]
        by_cases h2 : e.1 = k2
        · rw [if_pos h2, if_pos h2]
        · rw [if_neg h2, if_neg h2, ih]

theorem mem_keys_mapStore (k x : Int) (v : OrganTypeParameter) :
    ∀ m : SubTypeMap, x ∈ (mapStore k v m).map Prod.fst →
      x = k ∨ x ∈ m.map Prod.fst := by
  intro m
  induction m with
  | nil =>
      intro h
      simp [mapStore] at h
      exact Or.inl h
  | cons e es ih =>
      intro h
      by_cases he : e.1 = k
      · rw [mapStore, if_pos he] at h
        simp only [List.map_cons, List.mem_cons] at h ⊢
        rcases h with h | h
        · exact Or.inl h
        · exact Or.inr (Or.inr h)
      · rw [mapStore, if_neg he] at h
        simp only [List.map_cons, List.mem_cons] at h ⊢
        rcases h with h | h
        · exact Or.inr (Or.inl h)
        · rcases ih h with h2 | h2
          · exact Or.inl h2
          · exact Or.inr (Or.inr h2)

theorem mapKeysNodup_mapStore (k : Int) (v : OrganTypeParameter) :
    ∀ m : SubTypeMap, mapKeysNodup m → mapKeysNodup (mapStore k v m) := by
  intro m
  induction m with
  | nil =>
      intro _
      simp [mapStore, mapKeysNodup]
  | cons e es ih =>
      intro h
      rw [mapKeysNodup, List.map_cons, List.nodup_cons] at h
      by_cases he : e.1 = k
      · rw [mapKeysNodup, mapStore, if_pos he, List.map_cons, List.nodup_cons]
        exact ⟨by rw [← he]; exact h.1, h.2⟩
      · rw [mapKeysNodup, mapStore, if_neg he, List.map_cons, List.nodup_cons]
        refine ⟨fun hc => ?_, ih h.2⟩
        rcases mem_keys_mapStore k e.1 v es hc with h2 | h2
        · exact he h2
        · exact h.1 h2

/-- C6: the registry holds at most one prototype per (organ-kind, subtype)
key: after `setOrganTypeParameter(p)`, the key `(p.organType, p.subType)`
maps to `p` (the previously stored prototype, if any, is replaced — the
source deletes it), every other key is unchanged, and key uniqueness is
preserved in every per-kind map. -/
theorem C6_registry_replace (o : Organism) (p : OrganTypeParameter)
    (hlen : o.organParam.length = numberOfOrganTypes)
    (hot : p.organType < numberOfOrganTypes) :
    mapFind p.subType ((o.setOrganTypeParameter p).organParam.getD p.organType [])
      = some p
    ∧ (∀ (ot : Nat) (st : Int), ¬(ot = p.organType ∧ st = p.subType) →
        mapFind st ((o.setOrganTypeParameter p).organParam.getD ot [])
          = mapFind st (o.organParam.getD ot []))
    ∧ ((∀ m ∈ o.organParam, mapKeysNodup m) →
        ∀ m ∈ (o.setOrganTypeParameter p).organParam, mapKeysNodup m) := by
  refine ⟨?_, ?_, ?_⟩
  · simp only [Organism.setOrganTypeParameter]
    rw [set_getD_same _ _ _ _ (by rw [hlen]; exact hot)]
    exact mapFind_mapStore_self _ _ _
  · intro ot st hne
    simp only [Organism.setOrganTypeParameter]
    by_cases hot2 : ot = p.organType
    · subst hot2
      have hst : st ≠ p.subType := fun hc => hne ⟨rfl, hc⟩
      rw [set_getD_same _ _ _ _ (by rw [hlen]; exact hot)]
      exact mapFind_mapStore_other _ _ _ hst _
    · rw [set_getD_other _ _ _ _ _ (fun hc => hot2 hc.symm)]
  · intro h m hm
    simp only [Organism.setOrganTypeParameter] at hm
    rcases List.mem_or_eq_of_mem_set hm with h2 | h2
    · exact h m h2
    · subst h2
      refine mapKeysNodup_mapStore _ _ _ ?_
      have hp : p.organType < o.organParam.length := by rw [hlen]; exact hot
      rw [List.getD_eq_getElem _ _ hp]
      exact h _ (List.getElem_mem hp)

/-- A replacement prototype for the C6 witness, at the same key as
`regOTP`. -/
def regOTP2 : OrganTypeParameter := OrganTypeParameter.mk "p2" 2 1

/-- Witness for C6 at a concrete organism: storing `regOTP2` over `regOTP`
replaces it, leaves the kind-1 registry unchanged, and keeps keys unique. -/
theorem C6_registry_replace_witness :
    (regOrganism.organParam.length = numberOfOrganTypes
      ∧ regOTP2.organType < numberOfOrganTypes)
    ∧ mapFind regOTP2.subType
        ((regOrganism.setOrganTypeParameter regOTP2).organParam.getD
          regOTP2.organType []) = some regOTP2
    ∧ mapFind 1 ((regOrganism.setOrganTypeParameter regOTP2).organParam.getD 1 [])
        = mapFind 1 (regOrganism.organParam.getD 1 []) :=
  ⟨⟨by decide, by decide⟩,
   (C6_registry_replace regOrganism regOTP2 (by decide) (by decide)).1,
   (C6_registry_replace regOrganism regOTP2 (by decide) (by decide)).2.1 1 1
     (by decide)⟩

theorem copyCtor_eq (o : Organism) :
    o.copyCtor = { o with oldNumberOfNodes := 0, oldNumberOfOrgans := 0 } := by
  have h1 : o.baseOrgans.map Organ.copyTo = o.baseOrgans := by
    have h : Organ.copyTo = fun x => x := rfl
    rw [h, List.map_id']
  have h2 : o.organParam.map (fun m => m.map (fun e => (e.1, e.2.copyTo)))
      = o.organParam := by
    have h : (fun (m : SubTypeMap) => m.map (fun e => (e.1, e.2.copyTo)))
        = fun (m : SubTypeMap) => m := by
      funext m
      have he : (fun (e : Int × OrganTypeParameter) => (e.1, e.2.copyTo))
          = fun e => e := rfl
      rw [he, List.map_id']
    rw [h, List.map_id']
  rw [Organism.copyCtor, h1, h2]

theorem simulate_ignores_snapshots (step : Rat → Organ → SimCtx → Organ × SimCtx)
    (dt : Rat) (v : Bool) (o : Organism) (x y : Int) :
    Organism.simulate step dt v
        { o with oldNumberOfNodes := x, oldNumberOfOrgans := y }
      = o.simulate step dt v := rfl

theorem getNodes_ignores_snapshots (o : Organism) (x y : Int) :
    ({ o with oldNumberOfNodes := x, oldNumberOfOrgans := y } : Organism).getNodes
      = o.getNodes := rfl

theorem getSegments_ignores_snapshots (o : Organism) (x y : Int) (ot : Int) :
    ({ o with oldNumberOfNodes := x, oldNumberOfOrgans := y } : Organism).getSegments ot
      = o.getSegments ot := rfl

/-- Repeated stepping: one `simulate(dt)` call per entry of `dts`, in
order (the round-trip experiment of spec section 8). -/
def Organism.runSeq (step : Rat → Organ → SimCtx → Organ × SimCtx)
    (dts : List Rat) (o : Organism) : Organism :=
  dts.foldl (fun acc dt => acc.simulate step dt false) o

/-- C9: deep-copying an organism (the copy constructor clones all base
organs and prototypes and copies the generator state) and running an
identical `simulate` sequence on the original and the clone — with the
seed set before `initialize` — produces identical node and segment
arrays.  (The only state the copy constructor does not carry over are the
two snapshot counters, which the first `simulate` overwrites and which
`getNodes`/`getSegments` never read.) -/
theorem C9_copy_then_run_identical (step : Rat → Organ → SimCtx → Organ × SimCtx)
    (dts : List Rat) (o : Organism) (seed : Nat) :
    (Organism.runSeq step dts (((o.setSeed seed).initHook).copyCtor)).getNodes
      = (Organism.runSeq step dts ((o.setSeed seed).initHook)).getNodes
    ∧ (Organism.runSeq step dts (((o.setSeed seed).initHook).copyCtor)).getSegments (-1)
      = (Organism.runSeq step dts ((o.setSeed seed).initHook)).getSegments (-1) := by
  cases dts with
  | nil =>
      rw [copyCtor_eq]
      exact ⟨getNodes_ignores_snapshots _ _ _, getSegments_ignores_snapshots _ _ _ _⟩
  | cons dt dts =>
      refine ⟨?_, ?_⟩ <;>
        rw [copyCtor_eq, Organism.runSeq, Organism.runSeq, List.foldl_cons,
          List.foldl_cons, simulate_ignores_snapshots]

theorem foldl_push_filter {α β : Type} (p : α → Bool) (f : α → β) (l : List α) :
    ∀ acc : List β,
      l.foldl (fun acc x => if p x then acc ++ [f x] else acc) acc
        = acc ++ (l.filter p).map f := by
  induction l with
  | nil => intro acc; simp
  | cons x xs ih =>
      intro acc
      rw [List.foldl_cons, List.filter_cons]
      by_cases h : p x = true
      · rw [if_pos h, if_pos h, ih, List.map_cons]
        simp [List.append_assoc]
      · rw [if_neg h, if_neg h, ih]

/-- C2: every traversed organ whose last step only repositioned its tip
(`hasMoved`, no append) is reported exactly once by
`getUpdatedNodeIndices`/`getUpdatedNodes`, at its current last node id and
position, and contributes no write to `getNewNodes`. -/
theorem C2_moved_tip_reporting (o : Organism)
    (hm : ∀ og ∈ o.getOrgans (-1), og.hasMoved = true →
      1 ≤ og.getOldNumberOfNodes
      ∧ og.getNumberOfNodes = og.getOldNumberOfNodes.toNat) :
    o.getUpdatedNodeIndices
      = ((o.getOrgans (-1)).filter (fun og => og.hasMoved)).map
          (fun og => og.getNodeId (og.getNumberOfNodes - 1))
    ∧ o.getUpdatedNodes
      = ((o.getOrgans (-1)).filter (fun og => og.hasMoved)).map
          (fun og => og.getNode (og.getNumberOfNodes - 1))
    ∧ ∀ og ∈ o.getOrgans (-1), og.hasMoved = true →
        og.newNodeWriteList o.oldNumberOfNodes = [] := by
  refine ⟨?_, ?_, ?_⟩
  · rw [Organism.getUpdatedNodeIndices, foldl_push_filter, List.nil_append]
    refine List.map_congr_left ?_
    intro og hog
    have h2 := List.mem_filter.mp hog
    have h3 := hm og h2.1 h2.2
    congr 1
    omega
  · rw [Organism.getUpdatedNodes, foldl_push_filter, List.nil_append]
    refine List.map_congr_left ?_
    intro og hog
    have h2 := List.mem_filter.mp hog
    have h3 := hm og h2.1 h2.2
    congr 1
    omega
  · intro og hog hmoved
    have h3 := hm og hog hmoved
    rw [Organ.newNodeWriteList, Organ.newNodeIdxList]
    simp only [if_neg (by omega : ¬og.getOldNumberOfNodes < 0)]
    have hz : og.getNumberOfNodes - og.getOldNumberOfNodes.toNat = 0 := by omega
    rw [hz]
    rfl

/-- A one-organ organism whose organ only repositioned its tip during the
last step: two nodes, stored old count 2, `moved` set. -/
def movedOrganism : Organism :=
  Organism.mk
    [Organ.mk (OrganData.mk 1 2 true true 0 0
      [Vector3d.mk 0 0 0, Vector3d.mk 0 0 1] [0, 1] [0, 0] true 2) []]
    [] 0 1 2 2 1 0

/-- Witness for C2 at `movedOrganism`. -/
theorem C2_moved_tip_reporting_witness :
    (∀ og ∈ movedOrganism.getOrgans (-1), og.hasMoved = true →
      1 ≤ og.getOldNumberOfNodes
      ∧ og.getNumberOfNodes = og.getOldNumberOfNodes.toNat)
    ∧ movedOrganism.getUpdatedNodeIndices
        = ((movedOrganism.getOrgans (-1)).filter (fun og => og.hasMoved)).map
            (fun og => og.getNodeId (og.getNumberOfNodes - 1)) :=
  ⟨by decide, (C2_moved_tip_reporting movedOrganism (by decide)).1⟩

theorem consistent_of_nodup_fst {α : Type} :
    ∀ ws : List (Int × α), (ws.map Prod.fst).Nodup → WritesConsistent ws := by
  intro ws
  induction ws with
  | nil =>
      intro _ w hw
      cases hw
  | cons w0 ws ih =>
      intro h w hw w2 hw2 heq
      rw [List.map_cons, List.nodup_cons] at h
      rcases List.mem_cons.mp hw with h1 | h1 <;> rcases List.mem_cons.mp hw2 with h2 | h2
      · rw [h1, h2]
      · subst h1
        exfalso
        apply h.1
        rw [heq]
        exact List.mem_map.mpr ⟨w2, h2, rfl⟩
      · subst h2
        exfalso
        apply h.1
        rw [← heq]
        exact List.mem_map.mpr ⟨w, h1, rfl⟩
      · exact ih h.2 w h1 w2 h2 heq

/-- C1: under the allocation-order invariant of spec section 4.3 (the node
ids the traversal's new-node loops touch, in traversal-then-append order,
are exactly `oldNumberOfNodes, ..., nextNodeId - 1`), `getNewNodes`
succeeds with an array of length exactly `nextNodeId - oldNumberOfNodes`,
each new node written at index `globalNodeId - oldNumberOfNodes`, every
index written exactly once (the write-index sequence is exactly
`0, ..., count-1`), and `getNewSegments` succeeds with an array of the
same length whose sequential writes fill every index exactly once. -/
theorem C1_new_arrays_exact (o : Organism)
    (hold : 0 ≤ o.oldNumberOfNodes ∧ o.oldNumberOfNodes ≤ o.getNumberOfNodes)
    (halloc : o.newNodeIds = intRange o.oldNumberOfNodes o.getNumberOfNewNodes.toNat)
    (hseg : ∀ og ∈ o.getOrgans (-1), og.getOldNumberOfNodes ≠ 0 ∧
      (og.getOldNumberOfNodes < 0 →
        og.getNumberOfNodes ≤ og.getOldNumberOfNodes.natAbs)) :
    (∃ nv, o.getNewNodes = .ok nv
      ∧ nv.length = o.getNumberOfNewNodes.toNat
      ∧ ∀ og ∈ o.getOrgans (-1), ∀ i ∈ og.newNodeIdxList,
          nv.getD (og.getNodeId i - o.oldNumberOfNodes).toNat default = og.getNode i)
    ∧ o.newNodeWrites.map Prod.fst = intRange 0 o.getNumberOfNewNodes.toNat
    ∧ o.getNewSegments (-1) = .ok (o.newSegValues (-1))
    ∧ (o.newSegValues (-1)).length = o.getNumberOfNewNodes.toNat := by
  have hfst : o.newNodeWrites.map Prod.fst
      = intRange 0 o.getNumberOfNewNodes.toNat := by
    rw [newNodeWrites_map_fst, halloc, map_sub_intRange]
    congr 1
    omega
  have hrange : WritesInRange o.newNodeWrites
      (List.replicate o.getNumberOfNewNodes.toNat (default : Vector3d)).length := by
    intro w hw
    rw [List.length_replicate]
    have hmem : w.1 ∈ o.newNodeWrites.map Prod.fst := List.mem_map.mpr ⟨w, hw, rfl⟩
    rw [hfst] at hmem
    have h2 := (mem_intRange _ _ _).mp hmem
    omega
  have hcons : WritesConsistent o.newNodeWrites :=
    consistent_of_nodup_fst _ (by rw [hfst]; exact nodup_intRange _ _)
  have hok : o.getNewNodes = .ok (writeListT
      (List.replicate o.getNumberOfNewNodes.toNat (default : Vector3d))
      o.newNodeWrites) := by
    rw [getNewNodes_eq_writeList]
    exact writeList_eq_ok _ _ hrange
  have hperorg : ∀ og ∈ o.getOrgans (-1),
      og.newSegPairs.length = (og.newNodeIdxList.map og.getNodeId).length := by
    intro og hog
    obtain ⟨h1, h2⟩ := hseg og hog
    rw [Organ.newSegPairs, List.length_map, List.length_map,
      Organ.newSegIdxList, Organ.newNodeIdxList]
    by_cases hneg : og.getOldNumberOfNodes < 0
    · rw [if_pos hneg, if_neg (by omega : ¬og.getOldNumberOfNodes.natAbs = 0),
        List.length_range']
      have h3 := h2 hneg
      simp only [List.length_nil]
      omega
    · rw [if_neg hneg, if_neg (by omega : ¬og.getOldNumberOfNodes.natAbs = 0),
        List.length_range', List.length_range']
      omega
  have hlenseg : (o.newSegValues (-1)).length = o.getNumberOfNewNodes.toNat := by
    have h1 : (o.newSegValues (-1)).length = o.newNodeIds.length := by
      rw [Organism.newSegValues, Organism.newNodeIds, List.length_flatten,
        List.length_flatten, List.map_map, List.map_map]
      congr 1
      refine List.map_congr_left ?_
      intro og hog
      simp only [Function.comp_apply]
      exact hperorg og hog
    rw [h1, halloc, length_intRange]
  refine ⟨⟨_, hok, ?_, ?_⟩, hfst, ?_, hlenseg⟩
  · rw [writeListT_length, List.length_replicate]
  · intro og hog i hi
    have hmem : ((og.getNodeId i - o.oldNumberOfNodes, og.getNode i) :
        Int × Vector3d) ∈ o.newNodeWrites := by
      rw [Organism.newNodeWrites]
      refine List.mem_flatten.mpr ⟨og.newNodeWriteList o.oldNumberOfNodes,
        List.mem_map.mpr ⟨og, hog, rfl⟩, ?_⟩
      rw [Organ.newNodeWriteList]
      exact List.mem_map.mpr ⟨i, hi, rfl⟩
    exact writeListT_getD_of_mem _ _ _ _ hmem hrange hcons
  · rw [getNewSegments_eq_counterFold,
      counterFold_exact _ _ _ (by rw [List.length_replicate, hlenseg]; omega)]
    rw [List.take_zero, List.nil_append]
    rfl

/-- A one-organ organism that appended two nodes (global ids 1 and 2)
during the last step: node counter 3, snapshot 1. -/
def grownOrganism : Organism :=
  Organism.mk
    [Organ.mk (OrganData.mk 1 2 true true 0 0
      [Vector3d.mk 0 0 0, Vector3d.mk 0 0 1, Vector3d.mk 0 0 2] [0, 1, 2]
      [0, 1, 1] false 1) []]
    [] 0 1 3 1 1 0

/-- Witness for C1 at `grownOrganism`. -/
theorem C1_new_arrays_exact_witness :
    (0 ≤ grownOrganism.oldNumberOfNodes
      ∧ grownOrganism.oldNumberOfNodes ≤ grownOrganism.getNumberOfNodes)
    ∧ grownOrganism.newNodeIds
        = intRange grownOrganism.oldNumberOfNodes
            grownOrganism.getNumberOfNewNodes.toNat
    ∧ grownOrganism.newNodeWrites.map Prod.fst
        = intRange 0 grownOrganism.getNumberOfNewNodes.toNat
    ∧ grownOrganism.getNewSegments (-1) = .ok (grownOrganism.newSegValues (-1)) :=
  ⟨⟨by decide, by decide⟩, by decide,
   (C1_new_arrays_exact grownOrganism ⟨by decide, by decide⟩ (by decide)
     (by decide)).2.1,
   (C1_new_arrays_exact grownOrganism ⟨by decide, by decide⟩ (by decide)
     (by decide)).2.2.1⟩

/-- C5: `getNodes` succeeds with a dense array whose size equals the
current node-id counter, in which every traversed organ's node `i` sits in
the slot of its stored global id `getNodeId(i)`, and every base organ's
attachment node (local index 0) is included even when that organ has
produced no further geometry.  The hypotheses are the spec's invariants:
every base organ owns its attachment node, every stored id is a valid slot,
and any two writes of the same global id carry the same position (a child
shares its first node with its parent). -/
theorem C5_getNodes_dense (o : Organism)
    (hbase : ∀ b ∈ o.baseOrgans, 0 < b.getNumberOfNodes)
    (hrange : WritesInRange o.nodeWrites o.getNumberOfNodes.toNat)
    (hcons : WritesConsistent o.nodeWrites) :
    ∃ nv, o.getNodes = .ok nv
      ∧ nv.length = o.getNumberOfNodes.toNat
      ∧ (∀ b ∈ o.baseOrgans, nv.getD (b.getNodeId 0).toNat default = b.getNode 0)
      ∧ ∀ og ∈ o.getOrgans (-1), ∀ i, i < og.getNumberOfNodes →
          nv.getD (og.getNodeId i).toNat default = og.getNode i := by
  have hrange2 : WritesInRange o.nodeWrites
      (List.replicate o.getNumberOfNodes.toNat (default : Vector3d)).length := by
    rw [List.length_replicate]
    exact hrange
  have hok : o.getNodes = .ok (writeListT
      (List.replicate o.getNumberOfNodes.toNat (default : Vector3d))
      o.nodeWrites) := by
    rw [getNodes_eq_writeList]
    exact writeList_eq_ok _ _ hrange2
  refine ⟨_, hok, ?_, ?_, ?_⟩
  · rw [writeListT_length, List.length_replicate]
  · intro b hb
    have hmem : ((b.getNodeId 0, b.getNode 0) : Int × Vector3d) ∈ o.nodeWrites := by
      rw [Organism.nodeWrites]
      exact List.mem_append_left _ (List.mem_map.mpr ⟨b, hb, rfl⟩)
    exact writeListT_getD_of_mem _ _ _ _ hmem hrange2 hcons
  · intro og hog i hi
    have hmem : ((og.getNodeId i, og.getNode i) : Int × Vector3d) ∈ o.nodeWrites := by
      rw [Organism.nodeWrites]
      refine List.mem_append_right _ ?_
      refine List.mem_flatten.mpr ⟨_, List.mem_map.mpr ⟨og, hog, rfl⟩, ?_⟩
      exact List.mem_map.mpr ⟨i, List.mem_range.mpr hi, rfl⟩
    exact writeListT_getD_of_mem _ _ _ _ hmem hrange2 hcons

/-- The per-organ index range the C3 spec sentence claims,
`[max(1, oldNodeCountForThisOrgan) - 1, currentNodeCount - 1)`.  This
definition follows the claim's words, for comparison with the
source-derived `newSegIdxList`. -/
def Organ.specSegIdxList (og : Organ) : List Nat :=
  let k := og.getOldNumberOfNodes.natAbs
  List.range' (max 1 k - 1) ((og.getNumberOfNodes - 1) - (max 1 k - 1))

/-- `getNewSegments` as the C3 claim describes it: identical to the source
translation except that the per-organ index range is the claimed
`[max(1, old) - 1, n - 1)` instead of the loop the source runs. -/
def Organism.specNewSegments (o : Organism) (ot : Int) : Except Unit (List Vector2i) :=
  Except.map Prod.fst <|
    (o.getOrgans ot).foldlM (fun (p : List Vector2i × Nat) og =>
        og.specSegIdxList.foldlM (fun p i => do
            let si ← vecSet p.1 (p.2 : Int)
              (Vector2i.mk (og.getNodeId i) (og.getNodeId (i + 1)))
            pure (si, p.2 + 1)) p)
      (List.replicate o.getNumberOfNewNodes.toNat (default : Vector2i), 0)

/-- A traversed organ created during the last step, with stored old node
count 0 and two nodes (global ids 0 and 1): the claimed range
`[max(1,0) - 1, 1) = [0, 1)` is nonempty, but the source loop's start
`(size_t)(0 - 1)` wraps to `SIZE_MAX` and the loop runs nothing. -/
def freshOrganism : Organism :=
  Organism.mk
    [Organ.mk (OrganData.mk 1 2 true true 0 0
      [Vector3d.mk 0 0 0, Vector3d.mk 0 0 1] [0, 1] [0, 0] false 0) []]
    [] 0 1 2 0 0 0

/-- C3 counterexample: at `freshOrganism` the source's `getNewSegments`
writes no segment at all (both slots keep the default `(0,0)` entry),
while deriving from the claimed range `[max(1, 0) - 1, 1)` yields the
segment `(0, 1)` in the first slot. -/
theorem C3_range_counterexample :
    freshOrganism.getNewSegments (-1) ≠ freshOrganism.specNewSegments (-1)
    ∧ freshOrganism.getNewSegments (-1)
        = .ok [Vector2i.mk 0 0, Vector2i.mk 0 0]
    ∧ freshOrganism.specNewSegments (-1)
        = .ok [Vector2i.mk 0 1, Vector2i.mk 0 0] := by decide

theorem ctIdxList_eq_newNodeIdxList (og : Organ)
    (h1 : og.getOldNumberOfNodes ≠ 0)
    (h2 : og.getOldNumberOfNodes < 0 →
      og.getNumberOfNodes ≤ og.getOldNumberOfNodes.natAbs) :
    og.ctIdxList = og.newNodeIdxList := by
  rw [Organ.ctIdxList, Organ.newNodeIdxList]
  by_cases hneg : og.getOldNumberOfNodes < 0
  · rw [if_pos hneg]
    have h3 := h2 hneg
    have hz : og.getNumberOfNodes - og.getOldNumberOfNodes.natAbs = 0 := by omega
    rw [hz]
    rfl
  · rw [if_neg hneg]
    have hk : og.getOldNumberOfNodes.natAbs = og.getOldNumberOfNodes.toNat := by
      omega
    rw [hk]

theorem ctWrites_map_fst (o : Organism)
    (hseg : ∀ og ∈ o.getOrgans (-1), og.getOldNumberOfNodes ≠ 0 ∧
      (og.getOldNumberOfNodes < 0 →
        og.getNumberOfNodes ≤ og.getOldNumberOfNodes.natAbs)) :
    o.ctWrites.map Prod.fst = o.newNodeWrites.map Prod.fst := by
  rw [Organism.ctWrites, Organism.newNodeWrites, List.map_flatten,
    List.map_flatten, List.map_map, List.map_map]
  congr 1
  refine List.map_congr_left ?_
  intro og hog
  simp only [Function.comp_apply, Organ.ctWriteList, Organ.newNodeWriteList,
    List.map_map]
  rw [ctIdxList_eq_newNodeIdxList og (hseg og hog).1 (hseg og hog).2]
  rfl

theorem newSegValues_length (o : Organism)
    (halloc : o.newNodeIds = intRange o.oldNumberOfNodes o.getNumberOfNewNodes.toNat)
    (hseg : ∀ og ∈ o.getOrgans (-1), og.getOldNumberOfNodes ≠ 0 ∧
      (og.getOldNumberOfNodes < 0 →
        og.getNumberOfNodes ≤ og.getOldNumberOfNodes.natAbs)) :
    (o.newSegValues (-1)).length = o.getNumberOfNewNodes.toNat := by
  have hperorg : ∀ og ∈ o.getOrgans (-1),
      og.newSegPairs.length = (og.newNodeIdxList.map og.getNodeId).length := by
    intro og hog
    obtain ⟨h1, h2⟩ := hseg og hog
    rw [Organ.newSegPairs, List.length_map, List.length_map,
      Organ.newSegIdxList, Organ.newNodeIdxList]
    by_cases hneg : og.getOldNumberOfNodes < 0
    · rw [if_pos hneg, if_neg (by omega : ¬og.getOldNumberOfNodes.natAbs = 0),
        List.length_range']
      have h3 := h2 hneg
      simp only [List.length_nil]
      omega
    · rw [if_neg hneg, if_neg (by omega : ¬og.getOldNumberOfNodes.natAbs = 0),
        List.length_range', List.length_range']
      omega
  have h1 : (o.newSegValues (-1)).length = o.newNodeIds.length := by
    rw [Organism.newSegValues, Organism.newNodeIds, List.length_flatten,
      List.length_flatten, List.map_map, List.map_map]
    congr 1
    refine List.map_congr_left ?_
    intro og hog
    simp only [Function.comp_apply]
    exact hperorg og hog
  rw [h1, halloc, length_intRange]

theorem newSegOriginValues_length_eq (o : Organism) (ot : Int) :
    (o.newSegOriginValues ot).length = (o.newSegValues ot).length := by
  rw [Organism.newSegOriginValues, Organism.newSegValues, List.length_flatten,
    List.length_flatten, List.map_map, List.map_map]
  congr 1
  refine List.map_congr_left ?_
  intro og _
  simp only [Function.comp_apply, Organ.newSegPairs, List.length_map]

/-- C3 amended: per traversed organ, the new segments and origins are
derived from the consecutive node-id pairs over the index range
`[k - 1, n - 1)` where `k = |storedOldNodeCount| ≥ 1`, while an organ with
stored old count 0 contributes nothing (the claimed `max(1, k) - 1` start
does not hold there, see the counterexample); the new-segment creation
times are derived from the organ's nodes in the range `[k, n)` — under the
allocation-order invariant these are exactly the new nodes, i.e. the
second node of each new segment — each written at index
`globalNodeId - oldNumberOfNodes`. -/
theorem C3_amended_ranges (o : Organism) (ot : Int)
    (halloc : o.newNodeIds = intRange o.oldNumberOfNodes o.getNumberOfNewNodes.toNat)
    (hseg : ∀ og ∈ o.getOrgans (-1), og.getOldNumberOfNodes ≠ 0 ∧
      (og.getOldNumberOfNodes < 0 →
        og.getNumberOfNodes ≤ og.getOldNumberOfNodes.natAbs)) :
    (∀ og ∈ o.getOrgans (-1),
      og.newSegIdxList
        = if 1 ≤ og.getOldNumberOfNodes.natAbs then
            List.range' (og.getOldNumberOfNodes.natAbs - 1)
              ((og.getNumberOfNodes - 1) - (og.getOldNumberOfNodes.natAbs - 1))
          else [])
    ∧ o.getNewSegments (-1) = .ok (o.newSegValues (-1))
    ∧ o.getNewSegmentOrigins (-1) = .ok (o.newSegOriginValues (-1))
    ∧ (∃ cts, o.getNewSegmentCTs ot = .ok cts
        ∧ ∀ og ∈ o.getOrgans (-1), ∀ i ∈ og.ctIdxList,
            cts.getD (og.getNodeId i - o.oldNumberOfNodes).toNat 0 = og.getNodeCT i)
    ∧ ∀ og ∈ o.getOrgans (-1), og.ctIdxList = og.newNodeIdxList := by
  have hfst : o.newNodeWrites.map Prod.fst
      = intRange 0 o.getNumberOfNewNodes.toNat := by
    rw [newNodeWrites_map_fst, halloc, map_sub_intRange]
    congr 1
    omega
  have hctfst : o.ctWrites.map Prod.fst
      = intRange 0 o.getNumberOfNewNodes.toNat := by
    rw [ctWrites_map_fst o hseg, hfst]
  have hctrange : WritesInRange o.ctWrites
      (List.replicate o.getNumberOfNewNodes.toNat (0 : Rat)).length := by
    intro w hw
    rw [List.length_replicate]
    have hmem : w.1 ∈ o.ctWrites.map Prod.fst := List.mem_map.mpr ⟨w, hw, rfl⟩
    rw [hctfst] at hmem
    have h2 := (mem_intRange _ _ _).mp hmem
    omega
  have hctcons : WritesConsistent o.ctWrites :=
    consistent_of_nodup_fst _ (by rw [hctfst]; exact nodup_intRange _ _)
  have hctok : o.getNewSegmentCTs ot = .ok (writeListT
      (List.replicate o.getNumberOfNewNodes.toNat (0 : Rat)) o.ctWrites) := by
    rw [getNewSegmentCTs_eq_writeList]
    exact writeList_eq_ok _ _ hctrange
  have hlenseg := newSegValues_length o halloc hseg
  refine ⟨?_, ?_, ?_, ⟨_, hctok, ?_⟩, ?_⟩
  · intro og hog
    obtain ⟨h1, _⟩ := hseg og hog
    rw [Organ.newSegIdxList]
    by_cases hz : og.getOldNumberOfNodes.natAbs = 0
    · rw [if_pos hz, if_neg (by omega)]
    · rw [if_neg hz, if_pos (by omega)]
  · rw [getNewSegments_eq_counterFold,
      counterFold_exact _ _ _ (by rw [List.length_replicate, hlenseg]; omega)]
    rw [List.take_zero, List.nil_append]
    rfl
  · rw [getNewSegmentOrigins_eq_counterFold,
      counterFold_exact _ _ _ (by
        rw [List.length_replicate, newSegOriginValues_length_eq, hlenseg]
        omega)]
    rw [List.take_zero, List.nil_append]
    rfl
  · intro og hog i hi
    have hmem : ((og.getNodeId i - o.oldNumberOfNodes, og.getNodeCT i) :
        Int × Rat) ∈ o.ctWrites := by
      rw [Organism.ctWrites]
      refine List.mem_flatten.mpr ⟨og.ctWriteList o.oldNumberOfNodes,
        List.mem_map.mpr ⟨og, hog, rfl⟩, ?_⟩
      rw [Organ.ctWriteList]
      exact List.mem_map.mpr ⟨i, hi, rfl⟩
    exact writeListT_getD_of_mem _ _ _ _ hmem hctrange hctcons
  · intro og hog
    exact ctIdxList_eq_newNodeIdxList og (hseg og hog).1 (hseg og hog).2

/-- Witness for the amended C3 at `grownOrganism`. -/
theorem C3_amended_ranges_witness :
    grownOrganism.newNodeIds
      = intRange grownOrganism.oldNumberOfNodes
          grownOrganism.getNumberOfNewNodes.toNat
    ∧ grownOrganism.getNewSegments (-1)
        = .ok (grownOrganism.newSegValues (-1))
    ∧ grownOrganism.getNewSegmentOrigins (-1)
        = .ok (grownOrganism.newSegOriginValues (-1)) :=
  ⟨by decide,
   (C3_amended_ranges grownOrganism (-1) (by decide) (by decide)).2.1,
   (C3_amended_ranges grownOrganism (-1) (by decide) (by decide)).2.2.1⟩

/-- Witness for C5 at `grownOrganism`. -/
theorem C5_getNodes_dense_witness :
    (∀ b ∈ grownOrganism.baseOrgans, 0 < b.getNumberOfNodes)
    ∧ WritesInRange grownOrganism.nodeWrites grownOrganism.getNumberOfNodes.toNat
    ∧ WritesConsistent grownOrganism.nodeWrites
    ∧ ∃ nv, grownOrganism.getNodes = .ok nv
        ∧ nv.length = grownOrganism.getNumberOfNodes.toNat
        ∧ (∀ b ∈ grownOrganism.baseOrgans,
            nv.getD (b.getNodeId 0).toNat default = b.getNode 0)
        ∧ ∀ og ∈ grownOrganism.getOrgans (-1), ∀ i, i < og.getNumberOfNodes →
            nv.getD (og.getNodeId i).toNat default = og.getNode i :=
  ⟨by decide, by decide, by decide,
   C5_getNodes_dense grownOrganism (by decide) (by decide) (by decide)⟩

end CRootBox
